import Mathlib

/-!
Verification of the view/update channel and audio session protocol of the
`webview` repository (`src/webview/`), via a shallow embedding of
`page_view.py`, `app.py` and `config.py` into Lean.

Modelling conventions:
* A live `WebSocket` handle is an opaque token (`Nat`); `self.client` is an
  `Option Nat`.
* The registered audio callback (`self.audio_callback`) is an opaque token
  (`Nat`); invoking it is recorded as a `sinkCall` event in the trace.
* `json.dumps({"type": t, "data": d})` envelopes on the outbound wire are
  embedded as the inductive `OutMsg` (one constructor per envelope shape that
  appears in the source).
* An inbound text frame is embedded as its `json.loads` outcome: `malformed`
  when `json.loads` raises, `object fields` for a parsed flat JSON object
  (dict access `message["k"]` is association-list lookup, `KeyError` when the
  key is absent).
* `base64.b64decode` is an external library function, taken as an abstract
  total `decode : String → String` parameter.
* Every operation returns its successor state together with the list of
  observable events it produced, in order.
-/

/-- Configuration object, from `src/webview/config.py` (`Config.__init__`).
Only the fields the core reads are carried; `debug` gates logging. -/
structure Config where
  host : String := "127.0.0.1"
  port : Nat := 8080
  debug : Bool := false
  log_level : String := "warning"
  title : String := "Webview Server"
deriving Repr, DecidableEq

/-- Outbound wire envelope, embedding `json.dumps({"type": ..., "data": ...})`
as sent by `HTMLUpdater` in `src/webview/page_view.py`. -/
inductive OutMsg where
  | html (data : String)
  | command (data : String)
  | audio (data : String)
deriving Repr, DecidableEq

/-- Observable events emitted by the server-side operations: a websocket
`send_text` of an envelope, an invocation of the registered audio callback
with decoded bytes, or a debug `print`. -/
inductive Event where
  | sent (m : OutMsg)
  | sinkCall (cb : Nat) (payload : String)
  | log (s : String)
deriving Repr, DecidableEq

/-- Whether an event is a wire transmission (`send_text`). -/
def Event.isSent : Event → Bool
  | Event.sent _ => true
  | _ => false

/-- Inbound text frame on the view channel, embedded as the outcome of
`json.loads(data)`: `malformed` when the text is not valid JSON, `object`
for a parsed (flat, string-valued) JSON object given as its field list. -/
inductive Frame where
  | malformed
  | object (fields : List (String × String))
deriving Repr, DecidableEq

/-- Dict access `message[key]`: association-list lookup; `none` models the
`KeyError` raised when the key is absent. -/
def lookupField (fields : List (String × String)) (key : String) : Option String :=
  match fields with
  | [] => none
  | (k, v) :: rest => if k = key then some v else lookupField rest key

/-- One `await websocket.receive_text()` outcome inside the connection loop:
a text frame, or the receive raising (peer closed the socket or a network
error — `WebSocketDisconnect` and friends). -/
inductive RecvEvent where
  | text (f : Frame)
  | disconnect
deriving Repr, DecidableEq

/-- How (whether) the `while True` loop of `connect_view` exits:
`blocked` means the supplied inbound events ran out while the loop is still
awaiting `receive_text` (the loop has not exited and `finally` has not run);
the other three are the exception classes that escape the loop body:
the receive raising on close/network error, `json.loads` raising on bad
JSON, and a `KeyError` from a missing field. -/
inductive LoopExit where
  | blocked
  | peerClose
  | jsonError
  | keyError
deriving Repr, DecidableEq

/-- State of the `HTMLUpdater` instance, from
`src/webview/page_view.py` (`HTMLUpdater.__init__`). -/
structure HTMLUpdater where
  config : Option Config
  html_content : String
  is_listening : Bool
  audio_callback : Option Nat
  change_detected : Bool
  client : Option Nat
deriving Repr, DecidableEq

namespace HTMLUpdater

/-- `HTMLUpdater.__init__`: initial attribute values. -/
def init : HTMLUpdater :=
  { config := none
    html_content := ""
    is_listening := false
    audio_callback := none
    change_detected := true
    client := none }

/-- `self.config and self.config.debug`. -/
def debugOn (st : HTMLUpdater) : Bool :=
  match st.config with
  | some c => c.debug
  | none => false

/-- Debug-gated `print`: one `log` event when the debug flag is set. -/
def dbg (st : HTMLUpdater) (s : String) : List Event :=
  if st.debugOn then [Event.log s] else []

/-- `HTMLUpdater.__send_update__`: if a client is connected, send the current
HTML as a `{"type": "html", "data": ...}` envelope (and log in debug mode);
otherwise only log in debug mode. The state is not modified — in particular
`change_detected` is left as it is. -/
def send_update (st : HTMLUpdater) : HTMLUpdater × List Event :=
  match st.client with
  | some _ =>
      (st, Event.sent (OutMsg.html st.html_content) :: st.dbg "Webview: View updated")
  | none =>
      (st, st.dbg "Webview: Client is not available for UI updates")

/-- `HTMLUpdater.__try_send_update__`: obtains or creates an event loop and
either runs `__send_update__` to completion or schedules it as a task; in
the embedding the scheduled coroutine is run here. -/
def try_send_update (st : HTMLUpdater) : HTMLUpdater × List Event :=
  st.send_update

/-- `HTMLUpdater.update_view` (synchronous entry point): set the HTML
content, set the dirty flag, attempt a push. -/
def update_view (st : HTMLUpdater) (new_html : String) : HTMLUpdater × List Event :=
  let st := { st with html_content := new_html, change_detected := true }
  st.try_send_update

/-- `HTMLUpdater.async_update_view`: set the HTML content, set the dirty
flag, await `__send_update__`. -/
def async_update_view (st : HTMLUpdater) (new_html : String) : HTMLUpdater × List Event :=
  let st := { st with html_content := new_html, change_detected := true }
  st.send_update

/-- `HTMLUpdater.start_listening`: with a client connected, register the
callback, send the `start_listening` command and set `is_listening`;
otherwise only log in debug mode. -/
def start_listening (st : HTMLUpdater) (callback : Nat) : HTMLUpdater × List Event :=
  match st.client with
  | some _ =>
      let st' := { st with audio_callback := some callback, is_listening := true }
      (st', Event.sent (OutMsg.command "start_listening") :: st'.dbg "Webview: Started listening")
  | none =>
      (st, st.dbg "Webview: Client is not available to start listening")

/-- `HTMLUpdater.stop_listening`: with a client connected, send the
`stop_listening` command, clear `is_listening` and the callback; otherwise
only log in debug mode. -/
def stop_listening (st : HTMLUpdater) : HTMLUpdater × List Event :=
  match st.client with
  | some _ =>
      let st' := { st with is_listening := false, audio_callback := none }
      (st', Event.sent (OutMsg.command "stop_listening") :: st'.dbg "Webview: Stopped listening")
  | none =>
      (st, st.dbg "Webview: Client is not available to stop listening")

/-- `HTMLUpdater.play_audio`: with a client connected, send the audio data
as a `{"type": "audio", "data": ...}` envelope; otherwise only log in debug
mode. -/
def play_audio (st : HTMLUpdater) (audio_data : String) : HTMLUpdater × List Event :=
  match st.client with
  | some _ =>
      (st, Event.sent (OutMsg.audio audio_data) :: st.dbg "Webview: Audio sent for playback")
  | none =>
      (st, st.dbg "Webview: Client is not available to play audio")

/-- The head of each loop iteration in `HTMLUpdater.connect_view`: when
`change_detected` is set, send the current HTML as an `html` envelope and
clear the flag. -/
def flushStep (st : HTMLUpdater) : HTMLUpdater × List Event :=
  if st.change_detected then
    ({ st with change_detected := false },
      [Event.sent (OutMsg.html st.html_content)])
  else (st, [])

/-- The `while True` loop of `HTMLUpdater.connect_view`, driven by the list
of `receive_text` outcomes. Each iteration first flushes the current HTML
when `change_detected` is set (clearing the flag), then receives; a parsed
`audio` message with a registered callback delivers the base64-decoded
payload to the callback; any other parsed message is ignored. Exceptions
(receive failure, bad JSON, missing key) exit the loop. -/
def viewLoop (decode : String → String) :
    List RecvEvent → HTMLUpdater → HTMLUpdater × List Event × LoopExit
  | [], st =>
    let f := flushStep st
    (f.1, f.2, LoopExit.blocked)
  | RecvEvent.disconnect :: _, st =>
    let f := flushStep st
    (f.1, f.2, LoopExit.peerClose)
  | RecvEvent.text Frame.malformed :: _, st =>
    let f := flushStep st
    (f.1, f.2, LoopExit.jsonError)
  | RecvEvent.text (Frame.object fields) :: rest, st =>
    let f := flushStep st
    let st1 := f.1
    let evts := f.2
    match lookupField fields "type" with
    | none => (st1, evts, LoopExit.keyError)
    | some ty =>
        if ty = "audio" then
          let evts := evts ++ st1.dbg "Webview: Received audio data"
          match st1.audio_callback with
          | some cb =>
              match lookupField fields "data" with
              | none => (st1, evts, LoopExit.keyError)
              | some d =>
                  let r := viewLoop decode rest st1
                  (r.1, evts ++ Event.sinkCall cb (decode d) :: r.2.1, r.2.2)
          | none =>
              let r := viewLoop decode rest st1
              (r.1, evts ++ r.2.1, r.2.2)
        else
          let r := viewLoop decode rest st1
          (r.1, evts ++ r.2.1, r.2.2)

/-- `HTMLUpdater.connect_view`: accept the websocket, install it as the
active client, run the receive loop; the `finally` clause clears
`self.client` on every exit from the loop (it has not yet run when the loop
is still blocked awaiting a receive). -/
def connect_view (decode : String → String) (ws : Nat) (st : HTMLUpdater)
    (events : List RecvEvent) : HTMLUpdater × List Event × LoopExit :=
  let st1 := { st with client := some ws }
  let hello := st1.dbg "Webview: Client has been connected"
  let r := viewLoop decode events st1
  match r.2.2 with
  | LoopExit.blocked => (r.1, hello ++ r.2.1, LoopExit.blocked)
  | ex => ({ r.1 with client := none }, hello ++ r.2.1, ex)

end HTMLUpdater

/-- The websocket endpoint `html_updater_socket` from `src/webview/app.py`:
wraps the connection handler in `try/except Exception`, so an exception that
escapes the handler (loop exit by close, network error or protocol error) is
caught at the endpoint and only logged in debug mode. The `Bool` component
records whether an exception escaped the endpoint itself: `except Exception`
catches every loop-exit exception, so it is `false` on all exits. -/
def html_updater_socket (decode : String → String) (ws : Nat)
    (st : HTMLUpdater) (events : List RecvEvent) :
    HTMLUpdater × List Event × Bool :=
  let r := st.connect_view decode ws events
  match r.2.2 with
  | LoopExit.blocked => (r.1, r.2.1, false)
  | _ =>
      (r.1, r.2.1 ++ (if r.1.debugOn then
        [Event.log "Client browser disconnected from html updater socket"] else []),
        false)

/-! ### Audio playback session

`src/webview/__init__.py` and `src/webview/app.py` import `AudioPlayer` and
`audio_player` from `webview.page_view`, but the class definition is absent
from the sources; only its callers (`WebView.play_audio`,
`WebView.async_play_audio`, the `audio_playback_socket` endpoint) and its
browser-side counterpart (`scripts/audio_player.py`) are present. The
definitions below are therefore modelled from the spec (§3 AudioClip /
PendingAudioSet, §4.3 Playback Session). -/

/-- One audio-playback request: identifier, payload (base64 data URI) and
optional scheduling delay in seconds. Clip identifiers are opaque unique
tokens (uuid strings in the source API), embedded as `Nat`. -/
structure AudioClip where
  id : Nat
  data : String
  delay : Option ℚ
deriving Repr, DecidableEq

/-- Modelled from the spec: state of the server-side `AudioPlayer` (absent
from the sources) — the active playback connection, the FIFO queue of
pending clips, the pending-id set, and a freshness counter embedding the
unique-id generator. -/
structure AudioPlayer where
  client : Option Nat
  audio_queue : List AudioClip
  pending : List Nat
  next_id : Nat
deriving Repr, DecidableEq

namespace AudioPlayer

/-- Initial playback state: no connection, empty queue, nothing pending. -/
def init : AudioPlayer :=
  { client := none, audio_queue := [], pending := [], next_id := 0 }

/-- Well-formedness of the id generator: every id already in the queue or
pending set was produced by an earlier call, hence is below the counter. -/
def WF (ap : AudioPlayer) : Prop :=
  (∀ i ∈ ap.pending, i < ap.next_id) ∧ (∀ c ∈ ap.audio_queue, c.id < ap.next_id)

instance (ap : AudioPlayer) : Decidable ap.WF := by
  unfold WF; infer_instance

/-- Modelled from the spec: `play(audio_data, delay=None)` — generate a
fresh clip identifier, enqueue `(id, audio_data, delay)` at the tail of the
playback queue, register the id as pending, and return the id at once
(fire-and-return: the call does not wait for the clip to be transmitted or
acknowledged). Both `play_audio` and `async_play_audio` delegate here. -/
def play_audio (ap : AudioPlayer) (audio_data : String) (delay : Option ℚ) :
    Nat × AudioPlayer :=
  let i := ap.next_id
  (i, { ap with
          audio_queue := ap.audio_queue ++ [{ id := i, data := audio_data, delay := delay }]
          pending := ap.pending ++ [i]
          next_id := ap.next_id + 1 })

/-- Message transmitted on the playback channel for one clip: the
`type:audio` envelope carrying id, data and delay. -/
inductive PlaybackOut where
  | clipSent (id : Nat) (data : String) (delay : Option ℚ)
deriving Repr, DecidableEq

/-- Modelled from the spec: the drain loop owned by the playback connection
handler — dequeue the head of the FIFO, transmit its envelope, then block
on the next inbound completion message and remove the acknowledged id from
the pending set (removal of an already-absent id is a no-op). The loop does
not start sending the next clip until the current one has been dispatched
and one completion message has been read; it blocks when the supplied
acknowledgment stream runs dry. Returns the transmission trace and the
remaining pending set. -/
def drain : List AudioClip → List Nat → List Nat → List PlaybackOut × List Nat
  | [], _, pending => ([], pending)
  | c :: rest, acks, pending =>
    let out := PlaybackOut.clipSent c.id c.data c.delay
    match acks with
    | [] => ([out], pending)
    | a :: moreAcks =>
        let r := drain rest moreAcks (pending.erase a)
        (out :: r.1, r.2)

end AudioPlayer

/-! ### Audio recording session

`AudioRecorder` is likewise imported from `webview.page_view` by
`src/webview/__init__.py` and `src/webview/app.py` but absent from the
sources; only its callers (`WebView.start_recording` / `stop_recording`)
and the browser-side `scripts/audio_recorder.py` are present. The
definitions below are modelled from the spec (§3 RecordingSession, §4.4
Recording Session). -/

/-- Modelled from the spec: state of the server-side `AudioRecorder`
(absent from the sources) — the active recording connection, the recording
flag and the single registered audio-sink callback (opaque token). -/
structure AudioRecorder where
  client : Option Nat
  is_recording : Bool
  audio_sink : Option Nat
deriving Repr, DecidableEq

/-- Observable output of the recording session: a command envelope sent to
the browser, or an invocation of the registered sink with a 16-bit PCM
buffer. -/
inductive RecorderOut where
  | commandSent (command : String)
  | sinkWrite (sink : Nat) (pcm : List Int)
deriving Repr, DecidableEq

namespace AudioRecorder

/-- Initial recording state: no connection, not recording, no sink. -/
def init : AudioRecorder :=
  { client := none, is_recording := false, audio_sink := none }

/-- Modelled from the spec: `start_recording(sink)` — returns `false` as a
no-op when no client is connected; otherwise registers the sink (replacing
any previous one), sends the `start_recording` command envelope, sets the
recording flag and returns `true`. -/
def start_recording (st : AudioRecorder) (sink : Nat) :
    Bool × AudioRecorder × List RecorderOut :=
  match st.client with
  | none => (false, st, [])
  | some _ =>
      (true, { st with audio_sink := some sink, is_recording := true },
        [RecorderOut.commandSent "start_recording"])

/-- Modelled from the spec: `stop_recording()` — returns `false` as a no-op
when no client is connected; otherwise sends the `stop_recording` command
envelope, clears the recording flag and returns `true`. -/
def stop_recording (st : AudioRecorder) :
    Bool × AudioRecorder × List RecorderOut :=
  match st.client with
  | none => (false, st, [])
  | some _ =>
      (true, { st with is_recording := false },
        [RecorderOut.commandSent "stop_recording"])

/-- Modelled from the spec: conversion of one floating-point sample (in
`[-1.0, 1.0]`, embedded as an exact rational) to 16-bit signed PCM — linear
scaling by `32767`, truncation to an integer, and clamping into
`[-32768, 32767]` rather than wrapping. -/
def to_pcm16 (s : ℚ) : Int :=
  let scaled := s * 32767
  let t : Int := if 0 ≤ scaled then ⌊scaled⌋ else ⌈scaled⌉
  max (-32768) (min 32767 t)

/-- Modelled from the spec: handling of one inbound
`type:audio_data` frame — while the recording flag is set and a sink is
registered, convert the samples to 16-bit PCM and invoke the sink; frames
arriving while the flag is clear are discarded without invoking the sink. -/
def handle_audio_frame (st : AudioRecorder) (samples : List ℚ) : List RecorderOut :=
  if st.is_recording then
    match st.audio_sink with
    | some sink => [RecorderOut.sinkWrite sink (samples.map to_pcm16)]
    | none => []
  else []

end AudioRecorder

/-! ### Derived definitions used by the statements -/

/-- The wire transmissions (`send_text` envelopes) occurring in a trace, in
order. -/
def sentMsgs (evts : List Event) : List OutMsg :=
  evts.filterMap fun e =>
    match e with
    | Event.sent m => some m
    | _ => none

/-- A sequence of synchronous `update_view` calls, threading the state and
concatenating the event traces. -/
def updateSeq : HTMLUpdater → List String → HTMLUpdater × List Event
  | st, [] => (st, [])
  | st, h :: rest =>
      let r := st.update_view h
      let r2 := updateSeq r.1 rest
      (r2.1, r.2 ++ r2.2)

/-! ### Helper lemmas -/

open HTMLUpdater (flushStep viewLoop)

@[simp]
theorem sentMsgs_nil : sentMsgs [] = [] := rfl

@[simp]
theorem sentMsgs_append (a b : List Event) :
    sentMsgs (a ++ b) = sentMsgs a ++ sentMsgs b := by
  simp [sentMsgs]

@[simp]
theorem sentMsgs_dbg (st : HTMLUpdater) (s : String) : sentMsgs (st.dbg s) = [] := by
  unfold HTMLUpdater.dbg
  split <;> rfl

theorem flushStep_of_false (st : HTMLUpdater) (h : st.change_detected = false) :
    flushStep st = (st, []) := by
  unfold flushStep
  simp [h]

theorem flushStep_of_true (st : HTMLUpdater) (h : st.change_detected = true) :
    flushStep st = ({ st with change_detected := false },
      [Event.sent (OutMsg.html st.html_content)]) := by
  unfold flushStep
  simp [h]

theorem update_view_no_client (st : HTMLUpdater) (h : String) (hc : st.client = none) :
    (st.update_view h).1 = { st with html_content := h, change_detected := true } ∧
    sentMsgs (st.update_view h).2 = [] := by
  unfold HTMLUpdater.update_view HTMLUpdater.try_send_update HTMLUpdater.send_update
  simp [hc]

theorem sentMsgs_cons_sent (m : OutMsg) (l : List Event) :
    sentMsgs (Event.sent m :: l) = m :: sentMsgs l := rfl

theorem sentMsgs_cons_sink (cb : Nat) (p : String) (l : List Event) :
    sentMsgs (Event.sinkCall cb p :: l) = sentMsgs l := rfl

theorem sentMsgs_cons_log (s : String) (l : List Event) :
    sentMsgs (Event.log s :: l) = sentMsgs l := rfl

theorem viewLoop_sent_of_false (decode : String → String) (events : List RecvEvent)
    (st : HTMLUpdater) (h : st.change_detected = false) :
    sentMsgs (viewLoop decode events st).2.1 = [] := by
  induction events generalizing st with
  | nil => simp [viewLoop, flushStep_of_false _ h]
  | cons e rest ih =>
    cases e with
    | disconnect => simp [viewLoop, flushStep_of_false _ h]
    | text f =>
      cases f with
      | malformed => simp [viewLoop, flushStep_of_false _ h]
      | object fields =>
        simp only [viewLoop, flushStep_of_false _ h]
        cases hty : lookupField fields "type" with
        | none => simp [hty]
        | some ty =>
          by_cases hau : ty = "audio"
          · cases hcb : st.audio_callback with
            | some cb =>
              cases hd : lookupField fields "data" with
              | none => simp [hty, hau, hcb, hd, sentMsgs_dbg]
              | some d =>
                  simp [hty, hau, hcb, hd, sentMsgs_append, sentMsgs_dbg,
                    sentMsgs_cons_sink, ih _ h]
            | none => simp [hty, hau, hcb, sentMsgs_append, sentMsgs_dbg, ih _ h]
          · simp [hty, hau, sentMsgs_append, ih _ h]

theorem viewLoop_sent_of_true (decode : String → String) (events : List RecvEvent)
    (st : HTMLUpdater) (h : st.change_detected = true) :
    sentMsgs (viewLoop decode events st).2.1 = [OutMsg.html st.html_content] := by
  cases events with
  | nil => simp [viewLoop, flushStep_of_true _ h, sentMsgs_cons_sent]
  | cons e rest =>
    cases e with
    | disconnect => simp [viewLoop, flushStep_of_true _ h, sentMsgs_cons_sent]
    | text f =>
      cases f with
      | malformed => simp [viewLoop, flushStep_of_true _ h, sentMsgs_cons_sent]
      | object fields =>
        simp only [viewLoop, flushStep_of_true _ h]
        cases hty : lookupField fields "type" with
        | none => simp [hty, sentMsgs_cons_sent]
        | some ty =>
          by_cases hau : ty = "audio"
          · cases hcb : st.audio_callback with
            | some cb =>
              cases hd : lookupField fields "data" with
              | none => simp [hty, hau, hcb, hd, sentMsgs_cons_sent, sentMsgs_append,
                  sentMsgs_dbg]
              | some d =>
                  simp [hty, hau, hcb, hd, sentMsgs_append, sentMsgs_cons_sent,
                    sentMsgs_cons_sink, sentMsgs_dbg]
                  exact viewLoop_sent_of_false decode rest _ rfl
            | none =>
                simp [hty, hau, hcb, sentMsgs_append, sentMsgs_cons_sent, sentMsgs_dbg]
                exact viewLoop_sent_of_false decode rest _ rfl
          · simp [hty, hau, sentMsgs_append, sentMsgs_cons_sent]
            exact viewLoop_sent_of_false decode rest _ rfl

theorem connect_view_trace (decode : String → String) (ws : Nat) (st : HTMLUpdater)
    (events : List RecvEvent) :
    (st.connect_view decode ws events).2.1 =
      ({ st with client := some ws } : HTMLUpdater).dbg "Webview: Client has been connected" ++
      (viewLoop decode events { st with client := some ws }).2.1 := by
  unfold HTMLUpdater.connect_view
  rcases hE : (viewLoop decode events { st with client := some ws }).2.2 <;> simp [hE]

theorem updateSeq_no_client (st : HTMLUpdater) (hs : List String) (hc : st.client = none) :
    (updateSeq st hs).1.client = none ∧ sentMsgs (updateSeq st hs).2 = [] := by
  induction hs generalizing st with
  | nil => simp [updateSeq]; exact hc
  | cons h rest ih =>
    obtain ⟨h1, h2⟩ := update_view_no_client st h hc
    have hc' : (st.update_view h).1.client = none := by rw [h1]; exact hc
    simp only [updateSeq]
    refine ⟨(ih _ hc').1, ?_⟩
    rw [sentMsgs_append, h2, (ih _ hc').2]
    rfl

theorem updateSeq_last (st : HTMLUpdater) (hs : List String) (h : String)
    (hc : st.client = none) :
    (updateSeq st (hs ++ [h])).1.html_content = h ∧
    (updateSeq st (hs ++ [h])).1.change_detected = true := by
  induction hs generalizing st with
  | nil =>
    obtain ⟨h1, _⟩ := update_view_no_client st h hc
    simp [updateSeq, h1]
  | cons x rest ih =>
    obtain ⟨h1, _⟩ := update_view_no_client st x hc
    have hc' : (st.update_view x).1.client = none := by rw [h1]; exact hc
    simp only [List.cons_append, updateSeq]
    exact ih _ hc'

/-! ### Claims -/

/-- C1: for every sequence of `update_view` calls made while no client is
connected, after the sequence the stored HTML content equals the last call's
argument with the dirty flag set and nothing was transmitted; on the next
connection the connection loop transmits exactly one frame, carrying exactly
that HTML — earlier arguments in the sequence are never delivered. -/
theorem claim_C1 (st : HTMLUpdater) (hs : List String) (h : String)
    (decode : String → String) (ws : Nat) (events : List RecvEvent)
    (hc : st.client = none) :
    (updateSeq st (hs ++ [h])).1.html_content = h ∧
    (updateSeq st (hs ++ [h])).1.change_detected = true ∧
    (updateSeq st (hs ++ [h])).1.client = none ∧
    sentMsgs (updateSeq st (hs ++ [h])).2 = [] ∧
    sentMsgs ((updateSeq st (hs ++ [h])).1.connect_view decode ws events).2.1 =
      [OutMsg.html h] := by
  obtain ⟨hl1, hl2⟩ := updateSeq_last st hs h hc
  obtain ⟨hn1, hn2⟩ := updateSeq_no_client st (hs ++ [h]) hc
  refine ⟨hl1, hl2, hn1, hn2, ?_⟩
  rw [connect_view_trace, sentMsgs_append, sentMsgs_dbg]
  have hcd : ({ (updateSeq st (hs ++ [h])).1 with client := some ws } :
      HTMLUpdater).change_detected = true := hl2
  have hht : ({ (updateSeq st (hs ++ [h])).1 with client := some ws } :
      HTMLUpdater).html_content = h := hl1
  rw [List.nil_append, viewLoop_sent_of_true _ _ _ hcd, hht]

/-- Witness for C1: two queued updates while disconnected, then a connect
that receives a single close event. -/
theorem claim_C1_witness :
    (updateSeq HTMLUpdater.init (["<p>a</p>"] ++ ["<p>b</p>"])).1.html_content = "<p>b</p>" ∧
    (updateSeq HTMLUpdater.init (["<p>a</p>"] ++ ["<p>b</p>"])).1.change_detected = true ∧
    (updateSeq HTMLUpdater.init (["<p>a</p>"] ++ ["<p>b</p>"])).1.client = none ∧
    sentMsgs (updateSeq HTMLUpdater.init (["<p>a</p>"] ++ ["<p>b</p>"])).2 = [] ∧
    sentMsgs ((updateSeq HTMLUpdater.init
        (["<p>a</p>"] ++ ["<p>b</p>"])).1.connect_view (fun s => s) 0
        [RecvEvent.disconnect]).2.1 = [OutMsg.html "<p>b</p>"] :=
  claim_C1 HTMLUpdater.init ["<p>a</p>"] "<p>b</p>" (fun s => s) 0
    [RecvEvent.disconnect] rfl

/-- C2: however the connection loop started by `connect_view` exits — peer
close, network error, or a protocol error — the active-connection reference
`client` is `none` when the loop returns; the `finally` cleanup runs on
every exit path. -/
theorem claim_C2 (decode : String → String) (ws : Nat) (st : HTMLUpdater)
    (events : List RecvEvent)
    (hexit : (st.connect_view decode ws events).2.2 ≠ LoopExit.blocked) :
    (st.connect_view decode ws events).1.client = none := by
  unfold HTMLUpdater.connect_view at hexit ⊢
  rcases hE : (viewLoop decode events { st with client := some ws }).2.2 <;>
    simp [hE] at hexit ⊢

/-- Witness for C2: a connection whose only inbound event is a peer close. -/
theorem claim_C2_witness :
    (HTMLUpdater.init.connect_view (fun s => s) 0 [RecvEvent.disconnect]).2.2 ≠
      LoopExit.blocked ∧
    (HTMLUpdater.init.connect_view (fun s => s) 0 [RecvEvent.disconnect]).1.client = none :=
  ⟨by decide, claim_C2 (fun s => s) 0 HTMLUpdater.init [RecvEvent.disconnect] (by decide)⟩

/-- C3 counterexample: with a client connected, `async_update_view`
successfully transmits the HTML envelope, yet the dirty flag is still set
afterwards — the write-path push never clears `change_detected`, refuting
the claim that a push that successfully transmits to a connected client
clears the dirty flag. -/
theorem claim_C3_counterexample :
    Event.sent (OutMsg.html "<p>x</p>") ∈
      (({ HTMLUpdater.init with client := some 0 } :
        HTMLUpdater).async_update_view "<p>x</p>").2 ∧
    (({ HTMLUpdater.init with client := some 0 } :
        HTMLUpdater).async_update_view "<p>x</p>").1.change_detected = true := by
  constructor
  · simp [HTMLUpdater.async_update_view, HTMLUpdater.send_update, HTMLUpdater.init]
  · rfl

/-- C3 (amended): every write (`update_view` / `async_update_view`) sets the
dirty flag; the write-path push `__send_update__` leaves the state — in
particular the dirty flag — unchanged even when it successfully transmits to
a connected client; only the connection loop's flush clears the flag; while
no client is connected nothing is transmitted and the set flag guarantees the
HTML is flushed on the next connect. -/
theorem claim_C3_amended (st : HTMLUpdater) (h : String)
    (decode : String → String) (ws : Nat) :
    (st.update_view h).1.change_detected = true ∧
    (st.async_update_view h).1.change_detected = true ∧
    st.send_update.1 = st ∧
    (st.change_detected = true →
      flushStep st = ({ st with change_detected := false },
        [Event.sent (OutMsg.html st.html_content)])) ∧
    (st.client = none →
      sentMsgs (st.update_view h).2 = [] ∧
      sentMsgs ((st.update_view h).1.connect_view decode ws []).2.1 = [OutMsg.html h]) := by
  refine ⟨?_, ?_, ?_, flushStep_of_true st, ?_⟩
  · unfold HTMLUpdater.update_view HTMLUpdater.try_send_update HTMLUpdater.send_update
    rcases hcl : ({ st with html_content := h, change_detected := true } :
      HTMLUpdater).client <;> simp [hcl]
  · unfold HTMLUpdater.async_update_view HTMLUpdater.send_update
    rcases hcl : ({ st with html_content := h, change_detected := true } :
      HTMLUpdater).client <;> simp [hcl]
  · unfold HTMLUpdater.send_update
    rcases hcl : st.client <;> simp [hcl]
  · intro hc
    obtain ⟨h1, h2⟩ := update_view_no_client st h hc
    refine ⟨h2, ?_⟩
    rw [connect_view_trace, sentMsgs_append, sentMsgs_dbg, List.nil_append]
    have hcd : ({ (st.update_view h).1 with client := some ws } :
        HTMLUpdater).change_detected = true := by rw [h1]
    have hht : ({ (st.update_view h).1 with client := some ws } :
        HTMLUpdater).html_content = h := by rw [h1]
    rw [viewLoop_sent_of_true _ _ _ hcd, hht]

/-- Witness for the amended C3 at concrete inputs (the initial state has the
dirty flag set and no client). -/
theorem claim_C3_amended_witness :
    (HTMLUpdater.init.update_view "x").1.change_detected = true ∧
    flushStep HTMLUpdater.init =
      ({ HTMLUpdater.init with change_detected := false },
        [Event.sent (OutMsg.html HTMLUpdater.init.html_content)]) ∧
    sentMsgs (HTMLUpdater.init.update_view "x").2 = [] ∧
    sentMsgs ((HTMLUpdater.init.update_view "x").1.connect_view (fun s => s) 0 []).2.1 =
      [OutMsg.html "x"] :=
  ⟨(claim_C3_amended HTMLUpdater.init "x" (fun s => s) 0).1,
    (claim_C3_amended HTMLUpdater.init "x" (fun s => s) 0).2.2.2.1 rfl,
    ((claim_C3_amended HTMLUpdater.init "x" (fun s => s) 0).2.2.2.2 rfl).1,
    ((claim_C3_amended HTMLUpdater.init "x" (fun s => s) 0).2.2.2.2 rfl).2⟩

/-- C6: a malformed inbound message on the view channel — text that is not
valid JSON, or a JSON object missing the `type` field — makes the connection
loop exit with that protocol error and clears the active-connection
reference, while the exception is contained at the websocket endpoint
boundary: `html_updater_socket` catches it and the process does not crash. -/
theorem claim_C6 (decode : String → String) (ws : Nat) (st : HTMLUpdater)
    (rest : List RecvEvent) (fields : List (String × String))
    (hty : lookupField fields "type" = none) :
    (st.connect_view decode ws (RecvEvent.text Frame.malformed :: rest)).2.2 =
      LoopExit.jsonError ∧
    (st.connect_view decode ws (RecvEvent.text Frame.malformed :: rest)).1.client = none ∧
    (html_updater_socket decode ws st (RecvEvent.text Frame.malformed :: rest)).2.2 =
      false ∧
    (st.connect_view decode ws (RecvEvent.text (Frame.object fields) :: rest)).2.2 =
      LoopExit.keyError ∧
    (st.connect_view decode ws (RecvEvent.text (Frame.object fields) :: rest)).1.client =
      none ∧
    (html_updater_socket decode ws st (RecvEvent.text (Frame.object fields) :: rest)).2.2 =
      false := by
  have hm : ∀ st' : HTMLUpdater,
      (viewLoop decode (RecvEvent.text Frame.malformed :: rest) st').2.2 =
        LoopExit.jsonError := by
    intro st'; simp [viewLoop]
  have hk : ∀ st' : HTMLUpdater,
      (viewLoop decode (RecvEvent.text (Frame.object fields) :: rest) st').2.2 =
        LoopExit.keyError := by
    intro st'; simp [viewLoop, hty]
  unfold html_updater_socket HTMLUpdater.connect_view
  simp [hm, hk]

/-- Witness for C6: a frame that is not JSON, and a JSON object carrying only
a `data` field, on a fresh connection. -/
theorem claim_C6_witness :
    (HTMLUpdater.init.connect_view (fun s => s) 0
      (RecvEvent.text Frame.malformed :: [])).2.2 = LoopExit.jsonError ∧
    (HTMLUpdater.init.connect_view (fun s => s) 0
      (RecvEvent.text Frame.malformed :: [])).1.client = none ∧
    (html_updater_socket (fun s => s) 0 HTMLUpdater.init
      (RecvEvent.text Frame.malformed :: [])).2.2 = false ∧
    (HTMLUpdater.init.connect_view (fun s => s) 0
      (RecvEvent.text (Frame.object [("data", "x")]) :: [])).2.2 = LoopExit.keyError ∧
    (HTMLUpdater.init.connect_view (fun s => s) 0
      (RecvEvent.text (Frame.object [("data", "x")]) :: [])).1.client = none ∧
    (html_updater_socket (fun s => s) 0 HTMLUpdater.init
      (RecvEvent.text (Frame.object [("data", "x")]) :: [])).2.2 = false :=
  claim_C6 (fun s => s) 0 HTMLUpdater.init [] [("data", "x")] (by decide)

/-- C7: with no client connected, every send-type operation — the view push
`__send_update__`, `play_audio`, `start_listening`, `stop_listening` —
transmits nothing, raises nothing, and leaves the state unchanged
(degrading to a no-op, optionally logging in debug mode). -/
theorem claim_C7 (st : HTMLUpdater) (audio_data : String) (cb : Nat)
    (hc : st.client = none) :
    st.send_update.1 = st ∧ sentMsgs st.send_update.2 = [] ∧
    (st.play_audio audio_data).1 = st ∧ sentMsgs (st.play_audio audio_data).2 = [] ∧
    (st.start_listening cb).1 = st ∧ sentMsgs (st.start_listening cb).2 = [] ∧
    st.stop_listening.1 = st ∧ sentMsgs st.stop_listening.2 = [] := by
  unfold HTMLUpdater.send_update HTMLUpdater.play_audio HTMLUpdater.start_listening
    HTMLUpdater.stop_listening
  simp [hc]

/-- Witness for C7: the initial state has no client. -/
theorem claim_C7_witness :
    HTMLUpdater.init.send_update.1 = HTMLUpdater.init ∧
    sentMsgs HTMLUpdater.init.send_update.2 = [] ∧
    (HTMLUpdater.init.play_audio "d").1 = HTMLUpdater.init ∧
    sentMsgs (HTMLUpdater.init.play_audio "d").2 = [] ∧
    (HTMLUpdater.init.start_listening 7).1 = HTMLUpdater.init ∧
    sentMsgs (HTMLUpdater.init.start_listening 7).2 = [] ∧
    HTMLUpdater.init.stop_listening.1 = HTMLUpdater.init ∧
    sentMsgs HTMLUpdater.init.stop_listening.2 = [] :=
  claim_C7 HTMLUpdater.init "d" 7 rfl

/-- Delivery of one inbound `audio` frame by the connection loop: when a
callback is registered, the loop invokes it with the base64-decoded payload. -/
theorem viewLoop_delivers (decode : String → String) (st : HTMLUpdater)
    (cb : Nat) (d : String) (hcb : st.audio_callback = some cb) :
    Event.sinkCall cb (decode d) ∈
      (viewLoop decode [RecvEvent.text (Frame.object [("type", "audio"), ("data", d)])]
        st).2.1 := by
  have hcb1 : (flushStep st).1.audio_callback = some cb := by
    unfold HTMLUpdater.flushStep
    split <;> simpa
  have hty : lookupField [("type", "audio"), ("data", d)] "type" = some "audio" := by
    simp [lookupField]
  have hd : lookupField [("type", "audio"), ("data", d)] "data" = some d := by
    simp [lookupField]
  simp [viewLoop, hty, hd, hcb1, List.mem_append]

/-- C10: a `stop_listening` call made while no client is connected leaves the
whole state — in particular `is_listening` and the registered audio
callback — unchanged, so the sink stays registered and an audio frame
decoded after a later reconnect is still delivered to it; only a
`stop_listening` call made while a client is connected clears the flag and
the callback. -/
theorem claim_C10 (st : HTMLUpdater) (cb ws : Nat) (d : String)
    (decode : String → String)
    (hc : st.client = none) (hcb : st.audio_callback = some cb) :
    st.stop_listening.1 = st ∧
    st.stop_listening.1.is_listening = st.is_listening ∧
    st.stop_listening.1.audio_callback = some cb ∧
    Event.sinkCall cb (decode d) ∈
      (st.stop_listening.1.connect_view decode ws
        [RecvEvent.text (Frame.object [("type", "audio"), ("data", d)])]).2.1 ∧
    (∀ st' : HTMLUpdater, st'.client.isSome = true →
      st'.stop_listening.1.is_listening = false ∧
      st'.stop_listening.1.audio_callback = none) := by
  have hid : st.stop_listening.1 = st := by
    unfold HTMLUpdater.stop_listening
    simp [hc]
  refine ⟨hid, by rw [hid], by rw [hid, hcb], ?_, ?_⟩
  · rw [hid, connect_view_trace]
    refine List.mem_append_right _ ?_
    exact viewLoop_delivers decode { st with client := some ws } cb d hcb
  · intro st' hcl
    rcases h : st'.client with _ | w
    · rw [h] at hcl; simp at hcl
    · unfold HTMLUpdater.stop_listening
      simp [h]

/-- Witness for C10: a registered sink survives a disconnected stop call and
receives the frame after reconnect; a connected stop call clears the state. -/
theorem claim_C10_witness :
    ({ HTMLUpdater.init with audio_callback := some 5 } : HTMLUpdater).stop_listening.1 =
      { HTMLUpdater.init with audio_callback := some 5 } ∧
    ({ HTMLUpdater.init with audio_callback := some 5 } :
      HTMLUpdater).stop_listening.1.is_listening =
      ({ HTMLUpdater.init with audio_callback := some 5 } : HTMLUpdater).is_listening ∧
    ({ HTMLUpdater.init with audio_callback := some 5 } :
      HTMLUpdater).stop_listening.1.audio_callback = some 5 ∧
    Event.sinkCall 5 ((fun s => s) "ZGF0YQ==") ∈
      (({ HTMLUpdater.init with audio_callback := some 5 } :
        HTMLUpdater).stop_listening.1.connect_view (fun s => s) 0
        [RecvEvent.text (Frame.object [("type", "audio"), ("data", "ZGF0YQ==")])]).2.1 ∧
    ({ HTMLUpdater.init with client := some 1 } : HTMLUpdater).stop_listening.1.is_listening =
      false ∧
    ({ HTMLUpdater.init with client := some 1 } :
      HTMLUpdater).stop_listening.1.audio_callback = none := by
  have H := claim_C10 { HTMLUpdater.init with audio_callback := some 5 } 5 0 "ZGF0YQ=="
    (fun s => s) rfl rfl
  exact ⟨H.1, H.2.1, H.2.2.1, H.2.2.2.1,
    H.2.2.2.2 { HTMLUpdater.init with client := some 1 } rfl⟩

/-- C4: every `play` call (`play_audio` / `async_play_audio` delegate here)
returns a fresh clip identifier — distinct from every pending id and every
queued clip's id — enqueues `(id, audio_data, delay)` at the tail of the
playback queue, registers the id as pending, and returns once the clip is
queued: at return time the id is still in the pending set (playback has not
completed); well-formedness of the id generator is preserved. -/
theorem claim_C4 (ap : AudioPlayer) (audio_data : String) (delay : Option ℚ)
    (hwf : ap.WF) :
    (ap.play_audio audio_data delay).2.audio_queue =
      ap.audio_queue ++ [{ id := (ap.play_audio audio_data delay).1,
                           data := audio_data, delay := delay }] ∧
    (ap.play_audio audio_data delay).1 ∈ (ap.play_audio audio_data delay).2.pending ∧
    (ap.play_audio audio_data delay).1 ∉ ap.pending ∧
    (∀ c ∈ ap.audio_queue, c.id ≠ (ap.play_audio audio_data delay).1) ∧
    (ap.play_audio audio_data delay).2.WF := by
  obtain ⟨hp, hq⟩ := hwf
  unfold AudioPlayer.play_audio
  refine ⟨rfl, ?_, ?_, ?_, ?_, ?_⟩
  · exact List.mem_append_right _ (List.mem_singleton_self _)
  · intro hmem
    exact lt_irrefl ap.next_id (hp _ hmem)
  · intro c hcq
    exact Nat.ne_of_lt (hq c hcq)
  · intro i hi
    rcases List.mem_append.mp hi with hi | hi
    · exact Nat.lt_succ_of_lt (hp i hi)
    · rw [List.mem_singleton.mp hi]; exact Nat.lt_succ_self _
  · intro c hcq
    rcases List.mem_append.mp hcq with hcq | hcq
    · exact Nat.lt_succ_of_lt (hq c hcq)
    · rw [List.mem_singleton.mp hcq]; exact Nat.lt_succ_self _

/-- Witness for C4: a play call on the initial playback state. -/
theorem claim_C4_witness :
    (AudioPlayer.init.play_audio "d" (some 3)).2.audio_queue =
      AudioPlayer.init.audio_queue ++
        [{ id := (AudioPlayer.init.play_audio "d" (some 3)).1,
           data := "d", delay := some 3 }] ∧
    (AudioPlayer.init.play_audio "d" (some 3)).1 ∈
      (AudioPlayer.init.play_audio "d" (some 3)).2.pending ∧
    (AudioPlayer.init.play_audio "d" (some 3)).1 ∉ AudioPlayer.init.pending ∧
    (∀ c ∈ AudioPlayer.init.audio_queue,
      c.id ≠ (AudioPlayer.init.play_audio "d" (some 3)).1) ∧
    (AudioPlayer.init.play_audio "d" (some 3)).2.WF :=
  claim_C4 AudioPlayer.init "d" (some 3) (by decide)

/-- C5: the playback drain loop transmits clips strictly in FIFO submission
order, independent of which acknowledgment ids arrive and in what order: the
transmission trace is always exactly the corresponding prefix of the
submission queue, and given enough acknowledgments every submitted clip is
transmitted, in submission order; the next clip is never dispatched before
the current one has been sent. -/
theorem claim_C5 (clips : List AudioClip) (acks pending : List Nat) :
    (AudioPlayer.drain clips acks pending).1 =
      (clips.take (acks.length + 1)).map
        (fun c => AudioPlayer.PlaybackOut.clipSent c.id c.data c.delay) ∧
    (clips.length ≤ acks.length + 1 →
      (AudioPlayer.drain clips acks pending).1 =
        clips.map (fun c => AudioPlayer.PlaybackOut.clipSent c.id c.data c.delay)) := by
  have main : ∀ (cs : List AudioClip) (aks ps : List Nat),
      (AudioPlayer.drain cs aks ps).1 =
        (cs.take (aks.length + 1)).map
          (fun c => AudioPlayer.PlaybackOut.clipSent c.id c.data c.delay) := by
    intro cs
    induction cs with
    | nil => intro aks ps; simp [AudioPlayer.drain]
    | cons c rest ih =>
      intro aks ps
      cases aks with
      | nil => simp [AudioPlayer.drain]
      | cons a more => simp [AudioPlayer.drain, ih]
  refine ⟨main clips acks pending, fun hlen => ?_⟩
  rw [main clips acks pending, List.take_of_length_le hlen]

/-- Witness for C5: two clips, one acknowledgment (with an id that matches
nothing), drained completely in submission order. -/
theorem claim_C5_witness :
    (AudioPlayer.drain
        [{ id := 0, data := "a", delay := none },
         { id := 1, data := "b", delay := some 3 }] [9] [0, 1]).1 =
      ([{ id := 0, data := "a", delay := none },
        { id := 1, data := "b", delay := some 3 }] : List AudioClip).map
        (fun c => AudioPlayer.PlaybackOut.clipSent c.id c.data c.delay) :=
  (claim_C5 [{ id := 0, data := "a", delay := none },
    { id := 1, data := "b", delay := some 3 }] [9] [0, 1]).2 (by decide)

/-- C8: `start_recording(sink)` returns `false` and is a complete no-op (no
state change, nothing sent) when no client is connected; otherwise it sends
the `start_recording` command, registers the sink, sets the recording flag
and returns `true`. -/
theorem claim_C8 (st : AudioRecorder) (sink : Nat) :
    (st.client = none →
      (st.start_recording sink).1 = false ∧
      (st.start_recording sink).2.1 = st ∧
      (st.start_recording sink).2.2 = []) ∧
    (st.client.isSome = true →
      (st.start_recording sink).1 = true ∧
      (st.start_recording sink).2.1.is_recording = true ∧
      (st.start_recording sink).2.1.audio_sink = some sink ∧
      (st.start_recording sink).2.2 = [RecorderOut.commandSent "start_recording"]) := by
  unfold AudioRecorder.start_recording
  constructor
  · intro hc; simp [hc]
  · intro hc
    rcases h : st.client with _ | w
    · rw [h] at hc; simp at hc
    · simp [h]

/-- Witness for C8: the disconnected initial state refuses; a connected state
accepts. -/
theorem claim_C8_witness :
    ((AudioRecorder.init.start_recording 4).1 = false ∧
      (AudioRecorder.init.start_recording 4).2.1 = AudioRecorder.init ∧
      (AudioRecorder.init.start_recording 4).2.2 = []) ∧
    ((({ AudioRecorder.init with client := some 2 } :
        AudioRecorder).start_recording 4).1 = true ∧
      (({ AudioRecorder.init with client := some 2 } :
        AudioRecorder).start_recording 4).2.1.is_recording = true ∧
      (({ AudioRecorder.init with client := some 2 } :
        AudioRecorder).start_recording 4).2.1.audio_sink = some 4 ∧
      (({ AudioRecorder.init with client := some 2 } :
        AudioRecorder).start_recording 4).2.2 =
        [RecorderOut.commandSent "start_recording"]) :=
  ⟨(claim_C8 AudioRecorder.init 4).1 rfl,
    (claim_C8 { AudioRecorder.init with client := some 2 } 4).2 rfl⟩

/-- C9: the float-sample to 16-bit PCM conversion never leaves the signed
16-bit range on any input — each sample is scaled by 32767 and clamped to
`[-32768, 32767]` rather than wrapping — and the sample array
`[-1.0, 0.0, 0.5, 1.0]` converts to `[-32767, 0, 16383, 32767]`. -/
theorem claim_C9 :
    (∀ s : ℚ, -32768 ≤ AudioRecorder.to_pcm16 s ∧ AudioRecorder.to_pcm16 s ≤ 32767) ∧
    [(-1 : ℚ), 0, 1/2, 1].map AudioRecorder.to_pcm16 = [-32767, 0, 16383, 32767] := by
  constructor
  · intro s
    unfold AudioRecorder.to_pcm16
    refine ⟨le_max_left _ _, max_le (by norm_num) (min_le_left _ _)⟩
  · simp only [List.map]
    norm_num [AudioRecorder.to_pcm16, Int.ceil_neg]
